import Mathlib

/-!
Shallow embedding of the content-generation pipeline of `src/backend/app.py`
(Flask backend): the Manim code extractor and renderer, the quiz synthesizer,
the transcript summarizer, the video-generation orchestrator and the quiz
scorer.  External effects (model calls, the subprocess, the directory scan,
fresh ids, timestamps) are passed in explicitly as environment values; JSON
payloads exchanged with the model are modelled as structured values; Python
floats are modelled as exact rationals (every value the claims mention is
exactly representable).
-/

/-- Python whitespace (`str.split()` / `str.strip()` with no argument). -/
def pyIsSpace (c : Char) : Bool :=
  c = ' ' || c = '\t' || c = '\n' || c = '\r' || c = '\x0b' || c = '\x0c'

/-- Python `str.strip()` on a character list: drop whitespace from both ends. -/
def pyStrip (l : List Char) : List Char :=
  ((l.dropWhile pyIsSpace).reverse.dropWhile pyIsSpace).reverse

/-- Python `str.lower()` (per-character, as used on the ASCII prompts here). -/
def pyLower (s : String) : String := String.mk (s.data.map Char.toLower)

/-- Python `str.split()` with no separator: split on whitespace runs,
discarding empty pieces. -/
def pySplit (s : String) : List String :=
  ((s.data.splitOnP pyIsSpace).filter (fun l => l ≠ [])).map String.mk

/-- Python truthiness of an optional string (`dict.get` result):
`None` and the empty string are falsy. -/
def pyFalsy : Option String → Bool
  | none => true
  | some s => s = ""

/-- A quiz question as produced by the model JSON
(`{'id': …, 'text': …, 'options': …, 'answer': …}`). -/
structure Question where
  id : Nat
  text : String
  options : List String
  answer : String
deriving DecidableEq

/-- The Question invariants stated in the data model: the answer is among the
options, there are exactly 4 options, and the options are pairwise distinct. -/
def questionInvariant (q : Question) : Prop :=
  q.answer ∈ q.options ∧ q.options.length = 4 ∧ q.options.Nodup

instance (q : Question) : Decidable (questionInvariant q) := by
  unfold questionInvariant; infer_instance

/-- The dictionary returned by `generate_quiz_with_gemini`: always carries
`quiz_id` and `video_id`; the `questions` key may be absent (`none`) when the
model JSON object had no such key, since the code never checks for it. -/
structure QuizData where
  quiz_id : String
  video_id : String
  questions : Option (List Question)
deriving DecidableEq

/-- Outcome of the quiz model call, after `json.loads`:
the call can raise, the body can fail to parse, the parsed value can be a
non-object (then `quiz_data['quiz_id'] = …` raises `TypeError`), or it is an
object whose `questions` key, when present, is modelled as a parsed list. -/
inductive GeminiQuizResponse where
  | transportError (msg : String)
  | invalidJson
  | jsonNonObject
  | jsonObject (questions : Option (List Question))
deriving DecidableEq

/-- Embedding of `generate_quiz_with_gemini(caption_content, video_id)` (app.py:151-185).
`fresh_id` stands for the `generate_quiz_id()` value drawn in whichever
branch executes.  The `try` body parses the response, attaches
`quiz_id`/`video_id` and returns it unchanged; every exception path returns
the fallback `{'quiz_id': …, 'video_id': …, 'questions': []}`. -/
def generate_quiz_with_gemini (resp : GeminiQuizResponse)
    (fresh_id video_id : String) : QuizData :=
  match resp with
  | .transportError _ => ⟨fresh_id, video_id, some []⟩
  | .invalidJson => ⟨fresh_id, video_id, some []⟩
  | .jsonNonObject => ⟨fresh_id, video_id, some []⟩
  | .jsonObject qs => ⟨fresh_id, video_id, qs⟩

/-- Outcome of a chat-completions call whose `message.content` is read:
either the call raises, or it yields an optional string content. -/
inductive ModelCall where
  | ok (content : Option String)
  | err (msg : String)
deriving DecidableEq

/-- Embedding of `summarize_transcript_with_gemini(caption_content)` (app.py:187-205).
On success it returns `response.choices[0].message.content or
"Could not generate summary."` — Python `or` substitutes the fallback for a
`None` or empty content; on any exception it returns the apology string. -/
def summarize_transcript_with_gemini (resp : ModelCall) : String :=
  match resp with
  | .ok (some s) => if s = "" then "Could not generate summary." else s
  | .ok none => "Could not generate summary."
  | .err _ => "Sorry, there was an error generating the summary."

/-- Embedding of `answers.get(str(question['id']))`: lookup in the submitted-answers dict,
modelled as an association list (first binding wins). -/
def lookupAnswer (answers : List (String × String)) (k : String) :
    Option String :=
  (answers.find? (fun p => p.1 = k)).map (fun p => p.2)

/-- The per-question test of the scoring loop (app.py:370):
`answers.get(str(question['id'])) == question['answer']` — a missing entry
yields `None`, which never equals the answer string. -/
def answerMatches (answers : List (String × String)) (q : Question) : Bool :=
  lookupAnswer answers (toString q.id) = some q.answer

/-- The scoring loop (app.py:368-371): count the questions whose submitted
answer string-equals the stored answer. -/
def countCorrect (answers : List (String × String)) :
    List Question → Nat
  | [] => 0
  | q :: rest =>
    (if answerMatches answers q then 1 else 0) + countCorrect answers rest

/-- The score payload of `submit_quiz` (app.py:376-381). -/
structure ScoreResult where
  correct : Nat
  total : Nat
  percentage : ℚ
  passed : Bool
deriving DecidableEq

/-- The score computation of `submit_quiz` (app.py:368-381):
`percentage = (correct_count / total_questions) * 100 if total_questions > 0
else 0`, `passed = percentage >= 70`. -/
def submit_quiz_score (questions : List Question)
    (answers : List (String × String)) : ScoreResult :=
  let correct_count := countCorrect answers questions
  let total_questions := questions.length
  let percentage : ℚ :=
    if total_questions > 0 then
      ((correct_count : ℚ) / (total_questions : ℚ)) * 100
    else 0
  ⟨correct_count, total_questions, percentage, decide (percentage ≥ 70)⟩

/-- Index of the first occurrence of `pat` in `s` (leftmost position where
`pat` is a prefix of the remaining suffix), as `re.search` over a literal
pattern locates its match. -/
def findFrom (pat : List Char) : List Char → Option Nat
  | [] => if pat.isPrefixOf [] then some 0 else none
  | c :: rest =>
    if pat.isPrefixOf (c :: rest) then some 0
    else (findFrom pat rest).map (fun i => i + 1)

/-- The opening delimiter of the regex in app.py:103. -/
def pyFenceOpen : List Char := "```python".data

/-- The closing delimiter of the regex in app.py:103. -/
def pyFenceClose : List Char := "```".data

/-- The code extractor (app.py:103-105):
`re.search(r"` ` ` `python(.*?)` ` ` `", code, re.DOTALL)` followed by
`.group(1).strip()`.  The leftmost match of the pattern starts at the first
occurrence of the opening delimiter (a later match would itself contain a
closing delimiter after that point, so the leftmost occurrence always wins),
and the non-greedy group ends at the first subsequent closing delimiter. -/
def extract_python_code (text : List Char) : Option (List Char) :=
  match findFrom pyFenceOpen text with
  | none => none
  | some i =>
    let rest := text.drop (i + pyFenceOpen.length)
    match findFrom pyFenceClose rest with
    | none => none
    | some j => some (pyStrip (rest.take j))

/-- Outcome of the `subprocess.run(["manim", …], timeout=120)` call
(app.py:114-142): completion with an exit code, `TimeoutExpired`,
`FileNotFoundError` (tool missing) or another exception. -/
inductive RenderOutcome where
  | completed (returncode : Int) (stderr : String)
  | timeout
  | toolMissing
  | otherError (msg : String)
deriving DecidableEq

/-- The external effects of `generate_manim_animation`: whether reading the
system-prompt file succeeds, the model call, the subprocess outcome and the
contents of `media/videos` (file name and modification time). -/
structure ManimEnv where
  systemPromptOk : Bool
  model : ModelCall
  render : RenderOutcome
  videoDir : List (String × Nat)

/-- The filter of app.py:120-121: files of the video folder whose name
starts with `MainScene` and ends with `.mp4`. -/
def manimMatches (dir : List (String × Nat)) : List (String × Nat) :=
  dir.filter (fun f =>
    List.isPrefixOf "MainScene".data f.1.data &&
    List.isSuffixOf ".mp4".data f.1.data)

/-- Python `video_files.sort(key=mtime, reverse=True)` inserts each file before the
first strictly-older one, keeping equal modification times in scan order
(Python's sort is stable); modelled by stable insertion. -/
def insertByMtimeDesc (x : String × Nat) :
    List (String × Nat) → List (String × Nat)
  | [] => [x]
  | y :: ys =>
    if y.2 ≤ x.2 then x :: y :: ys else y :: insertByMtimeDesc x ys

/-- The descending-by-mtime stable sort of app.py:125. -/
def sortByMtimeDesc : List (String × Nat) → List (String × Nat)
  | [] => []
  | x :: xs => insertByMtimeDesc x (sortByMtimeDesc xs)

/-- The artifact-discovery step (app.py:118-129), entered on exit code 0:
filter the video folder, return `None` when nothing matches, otherwise sort
by modification time descending and return the path of the head. -/
def find_generated_video (dir : List (String × Nat)) : Option String :=
  let video_files := manimMatches dir
  if video_files.isEmpty then none
  else
    match sortByMtimeDesc video_files with
    | [] => none
    | f :: _ => some ("media/videos/" ++ f.1)

/-- Embedding of `generate_manim_animation(prompt)` (app.py:84-149): every failure path —
system-prompt read error, model exception, no python code block in the
response, subprocess timeout, missing tool, other subprocess error, non-zero
exit code, or no matching artifact — returns `None`; on full success it
returns the discovered artifact path. -/
def generate_manim_animation (env : ManimEnv) : Option String :=
  if !env.systemPromptOk then none
  else
    match env.model with
    | .err _ => none
    | .ok none => none
    | .ok (some code) =>
      match extract_python_code code.data with
      | none => none
      | some _python_code =>
        match env.render with
        | .timeout => none
        | .toolMissing => none
        | .otherError _ => none
        | .completed rc _stderr =>
          if rc = 0 then find_generated_video env.videoDir else none

/-- A stored video record (app.py:255-264). -/
structure VideoRecord where
  video_id : String
  user_id : String
  title : String
  thumbnail_url : String
  video_file_url : String
  caption_content : String
  topic_tags : List String
  created_at : String

/-- The tag derivation of app.py:262:
`[tag for tag in prompt.lower().split() if len(tag) > 3]`. -/
def topicTags (prompt : String) : List String :=
  (pySplit (pyLower prompt)).filter (fun tag => tag.length > 3)

/-- The title derivation of app.py:240:
`prompt[:30] + '...' if len(prompt) > 30 else prompt`. -/
def deriveTitle (prompt : String) : String :=
  if prompt.length > 30 then String.mk (prompt.data.take 30) ++ "..." else prompt

/-- External effects of one `generate_video` request: the fresh video id,
the fresh quiz id, the Manim pipeline environment, the quiz model response
and the timestamp. -/
structure GenEnv where
  video_id : String
  quiz_id : String
  manim : ManimEnv
  quizResp : GeminiQuizResponse
  created_at : String

/-- Embedding of `quizzes[video_id] = quiz`: overwrite-or-append in the quiz map,
modelled as an association list keyed by video id. -/
def storeQuiz (quizzes : List (String × QuizData)) (video_id : String)
    (quiz : QuizData) : List (String × QuizData) :=
  if (quizzes.find? (fun p => p.1 = video_id)).isSome then
    quizzes.map (fun p => if p.1 = video_id then (video_id, quiz) else p)
  else quizzes ++ [(video_id, quiz)]

/-- The `/api/videos/generate` handler (app.py:229-276).  Inputs are the
optional `prompt` and `user_id` fields of the request body; the result is
the HTTP outcome — `(status, message)` error or the `{video, quiz}` payload
— together with the updated `videos` list and `quizzes` map. -/
def generate_video (prompt? user_id? : Option String) (env : GenEnv)
    (videos : List VideoRecord) (quizzes : List (String × QuizData)) :
    Except (Nat × String) (VideoRecord × QuizData) ×
      List VideoRecord × List (String × QuizData) :=
  if pyFalsy prompt? || pyFalsy user_id? then
    (.error (400, "Prompt and user_id are required"), videos, quizzes)
  else
    let prompt := prompt?.getD ""
    let user_id := user_id?.getD ""
    let video_id := env.video_id
    let title := deriveTitle prompt
    let caption_content :=
      "This is a generated video about " ++ prompt ++
        ". The video explains the key concepts and provides detailed information on the topic."
    let video_file_path := generate_manim_animation env.manim
    let video_file_url :=
      match video_file_path with
      | none => "mock_video.mp4"
      | some p => if p = "" then "mock_video.mp4" else p
    let new_video : VideoRecord :=
      { video_id := video_id
        user_id := user_id
        title := title
        thumbnail_url :=
          "https://placehold.co/600x400/1a202c/ffffff?text=" ++
            title.replace " " "+"
        video_file_url := video_file_url
        caption_content := caption_content
        topic_tags := topicTags prompt
        created_at := env.created_at }
    let videos' := videos ++ [new_video]
    let quiz := generate_quiz_with_gemini env.quizResp env.quiz_id video_id
    let quizzes' := storeQuiz quizzes video_id quiz
    (.ok (new_video, quiz), videos', quizzes')

/-- Python division, which raises `ZeroDivisionError` on a zero divisor;
used to check that the guarded scoring expression never divides by zero. -/
def pyDiv (a b : ℚ) : Except String ℚ :=
  if b = 0 then .error "ZeroDivisionError" else .ok (a / b)

/-- The score computation with the division failure mode kept explicit:
the one place `submit_quiz` could raise on a well-formed quiz is the
division, and it is guarded by `if total_questions > 0`. -/
def submit_quiz_score_checked (questions : List Question)
    (answers : List (String × String)) : Except String ScoreResult :=
  let correct_count := countCorrect answers questions
  let total_questions := questions.length
  (if total_questions > 0 then
      (pyDiv (correct_count : ℚ) (total_questions : ℚ)).map (fun r => r * 100)
    else .ok 0).map
    (fun percentage =>
      ⟨correct_count, total_questions, percentage, decide (percentage ≥ 70)⟩)

/-- Disjunction of the failure conditions of the Manim pipeline stages:
system-prompt read failure, model exception, missing content, no python code
block, subprocess timeout, missing tool, other subprocess error, non-zero
exit, or no matching artifact in the video folder. -/
def manimStageFailed (env : ManimEnv) : Prop :=
  env.systemPromptOk = false ∨
  (∃ m, env.model = .err m) ∨
  env.model = .ok none ∨
  (∀ code, env.model = .ok (some code) → extract_python_code code.data = none) ∨
  env.render = .timeout ∨
  env.render = .toolMissing ∨
  (∃ m, env.render = .otherError m) ∨
  (∃ rc stderr, env.render = .completed rc stderr ∧ rc ≠ 0) ∨
  manimMatches env.videoDir = []

theorem isPrefixOf_append_self (l t : List Char) :
    List.isPrefixOf l (l ++ t) = true := by
  induction l with
  | nil => cases t <;> rfl
  | cons c cs ih => simp [List.isPrefixOf, ih]

theorem exists_append_of_isPrefixOf {l s : List Char}
    (h : List.isPrefixOf l s = true) : ∃ t, s = l ++ t := by
  induction l generalizing s with
  | nil => exact ⟨s, rfl⟩
  | cons c cs ih =>
    cases s with
    | nil => simp [List.isPrefixOf] at h
    | cons b bs =>
      simp only [List.isPrefixOf, Bool.and_eq_true, beq_iff_eq] at h
      obtain ⟨t, ht⟩ := ih h.2
      exact ⟨t, by simp [h.1, ht]⟩

theorem findFrom_isPrefixOf {pat s : List Char} {i : Nat}
    (h : findFrom pat s = some i) :
    List.isPrefixOf pat (s.drop i) = true := by
  induction s generalizing i with
  | nil =>
    simp only [findFrom] at h
    split at h
    · cases h; simpa using ‹List.isPrefixOf pat [] = true›
    · cases h
  | cons c rest ih =>
    simp only [findFrom] at h
    split at h
    · cases h; simpa using ‹List.isPrefixOf pat (c :: rest) = true›
    · rw [Option.map_eq_some'] at h
      obtain ⟨j, hj, rfl⟩ := h
      simpa using ih hj

theorem findFrom_append_first {pat r : List Char} (a : List Char)
    (hr : List.isPrefixOf pat r = true)
    (ha : ∀ k, k < a.length → List.isPrefixOf pat ((a ++ r).drop k) = false) :
    findFrom pat (a ++ r) = some a.length := by
  induction a with
  | nil =>
    cases r with
    | nil =>
      simp only [List.nil_append, findFrom]
      simp [hr]
    | cons c cs => simp [findFrom, hr]
  | cons x xs ih =>
    have h0 : List.isPrefixOf pat (x :: (xs ++ r)) = false := by
      simpa using ha 0 (by simp)
    have ih' := ih (fun k hk => by simpa using ha (k + 1) (by simpa using hk))
    simp [findFrom, h0, ih']

theorem drop_append_two (a p r : List Char) :
    (a ++ (p ++ r)).drop (a.length + p.length) = r := by
  rw [← List.append_assoc, ← List.length_append]
  exact List.drop_left _ _

theorem take_append_self (b r : List Char) : (b ++ r).take b.length = b :=
  List.take_left b r

theorem extract_python_code_decompose (a b rest2 : List Char)
    (ha : ∀ k, k < a.length →
      List.isPrefixOf pyFenceOpen
        ((a ++ (pyFenceOpen ++ (b ++ (pyFenceClose ++ rest2)))).drop k) = false)
    (hb : ∀ k, k < b.length →
      List.isPrefixOf pyFenceClose ((b ++ (pyFenceClose ++ rest2)).drop k) = false) :
    extract_python_code (a ++ (pyFenceOpen ++ (b ++ (pyFenceClose ++ rest2)))) =
      some (pyStrip b) := by
  have h1 : findFrom pyFenceOpen
      (a ++ (pyFenceOpen ++ (b ++ (pyFenceClose ++ rest2)))) = some a.length :=
    findFrom_append_first a (isPrefixOf_append_self _ _) ha
  have hdrop : (a ++ (pyFenceOpen ++ (b ++ (pyFenceClose ++ rest2)))).drop
      (a.length + pyFenceOpen.length) = b ++ (pyFenceClose ++ rest2) :=
    drop_append_two _ _ _
  have h2 : findFrom pyFenceClose (b ++ (pyFenceClose ++ rest2)) = some b.length :=
    findFrom_append_first b (isPrefixOf_append_self _ _) hb
  have htake : (b ++ (pyFenceClose ++ rest2)).take b.length = b :=
    take_append_self _ _
  simp [extract_python_code, h1, hdrop, h2, htake]

theorem extract_python_code_none {text : List Char}
    (hnone : ∀ x y z : List Char,
      text ≠ x ++ (pyFenceOpen ++ (y ++ (pyFenceClose ++ z)))) :
    extract_python_code text = none := by
  cases h1 : findFrom pyFenceOpen text with
  | none => simp [extract_python_code, h1]
  | some i =>
    cases h2 : findFrom pyFenceClose (text.drop (i + pyFenceOpen.length)) with
    | none => simp [extract_python_code, h1, h2]
    | some j =>
      exfalso
      obtain ⟨t1, ht1⟩ := exists_append_of_isPrefixOf (findFrom_isPrefixOf h1)
      have hd : text.drop (i + pyFenceOpen.length) = t1 := by
        rw [← List.drop_drop, ht1, List.drop_left]
      rw [hd] at h2
      obtain ⟨t3, ht3⟩ := exists_append_of_isPrefixOf (findFrom_isPrefixOf h2)
      apply hnone (text.take i) (t1.take j) t3
      calc text = text.take i ++ text.drop i := (List.take_append_drop i text).symm
    _ = text.take i ++ (pyFenceOpen ++ t1) := by rw [ht1]
    _ = text.take i ++ (pyFenceOpen ++ (t1.take j ++ t1.drop j)) := by
          rw [List.take_append_drop]
    _ = text.take i ++ (pyFenceOpen ++ (t1.take j ++ (pyFenceClose ++ t3))) := by
          rw [ht3]

theorem sortByMtimeDesc_max (l : List (String × Nat)) (hne : l ≠ []) :
    ∃ g rest, sortByMtimeDesc l = g :: rest ∧ g ∈ l ∧ ∀ f ∈ l, f.2 ≤ g.2 := by
  induction l with
  | nil => exact absurd rfl hne
  | cons x xs ih =>
    cases hxs : xs with
    | nil =>
      refine ⟨x, [], by simp [sortByMtimeDesc, insertByMtimeDesc], by simp, ?_⟩
      intro f hf
      simp at hf
      simp [hf]
    | cons y ys =>
      obtain ⟨g, rest, hsort, hmem, hmax⟩ := ih (by simp [hxs])
      rw [← hxs] at *
      by_cases hle : g.2 ≤ x.2
      · refine ⟨x, g :: rest, ?_, by simp, ?_⟩
        · simp [sortByMtimeDesc, hsort, insertByMtimeDesc, hle]
        · intro f hf
          rcases List.mem_cons.mp hf with hfx | hfxs
          · simp [hfx]
          · exact le_trans (hmax f hfxs) hle
      · push_neg at hle
        refine ⟨g, insertByMtimeDesc x rest, ?_, List.mem_cons_of_mem x hmem, ?_⟩
        · simp [sortByMtimeDesc, hsort, insertByMtimeDesc, not_le.mpr hle]
        · intro f hf
          rcases List.mem_cons.mp hf with hfx | hfxs
          · exact hfx ▸ le_of_lt hle
          · exact hmax f hfxs

theorem find_generated_video_empty {dir : List (String × Nat)}
    (h : manimMatches dir = []) : find_generated_video dir = none := by
  simp [find_generated_video, h]

theorem find_generated_video_max {dir : List (String × Nat)}
    (h : manimMatches dir ≠ []) :
    ∃ g, g ∈ manimMatches dir ∧ (∀ f ∈ manimMatches dir, f.2 ≤ g.2) ∧
      find_generated_video dir = some ("media/videos/" ++ g.1) := by
  obtain ⟨g, rest, hsort, hmem, hmax⟩ := sortByMtimeDesc_max _ h
  refine ⟨g, hmem, hmax, ?_⟩
  simp [find_generated_video, List.isEmpty_iff, h, hsort]

theorem generate_manim_animation_eq_none {env : ManimEnv}
    (h : manimStageFailed env) : generate_manim_animation env = none := by
  obtain ⟨sp, mo, re, dir⟩ := env
  cases sp with
  | false => simp [generate_manim_animation]
  | true =>
    cases mo with
    | err m => simp [generate_manim_animation]
    | ok oc =>
      cases oc with
      | none => simp [generate_manim_animation]
      | some c =>
        rcases h with h | ⟨m, hm⟩ | h | h | h | h | ⟨m, hm⟩ | ⟨rc, st, hre, hrc⟩ | h
        · exact absurd h (by simp)
        · exact absurd hm (by simp)
        · exact absurd h (by simp)
        · have hc := h c rfl
          simp [generate_manim_animation, hc]
        · subst h
          cases hx : extract_python_code c.data <;>
            simp [generate_manim_animation, hx]
        · subst h
          cases hx : extract_python_code c.data <;>
            simp [generate_manim_animation, hx]
        · subst hm
          cases hx : extract_python_code c.data <;>
            simp [generate_manim_animation, hx]
        · subst hre
          cases hx : extract_python_code c.data <;>
            simp [generate_manim_animation, hx, hrc]
        · cases hx : extract_python_code c.data
          · cases re <;> simp [generate_manim_animation, hx]
          · cases re <;>
              simp [generate_manim_animation, hx, find_generated_video_empty h]

theorem countCorrect_eq_filter_length (answers : List (String × String))
    (qs : List Question) :
    countCorrect answers qs = (qs.filter (answerMatches answers)).length := by
  induction qs with
  | nil => rfl
  | cons q rest ih =>
    simp only [countCorrect, List.filter]
    cases h : answerMatches answers q <;> simp [ih, Nat.add_comm]

theorem deriveTitle_length_le (prompt : String) :
    (deriveTitle prompt).length ≤ 33 := by
  unfold deriveTitle
  split
  · show (String.mk (prompt.data.take 30) ++ "...").data.length ≤ 33
    have hdata : (String.mk (prompt.data.take 30) ++ "...").data =
        prompt.data.take 30 ++ "...".data := rfl
    rw [hdata, List.length_append, List.length_take]
    have h30 : min 30 prompt.data.length ≤ 30 := min_le_left _ _
    have h3 : ("...".data).length = 3 := rfl
    omega
  · next h => omega

theorem deriveTitle_short (prompt : String) (h : prompt.length ≤ 30) :
    deriveTitle prompt = prompt := by
  unfold deriveTitle
  split
  · next hgt => omega
  · rfl

/-- C5: the code extractor returns `None` (the `NoCodeBlockFound` outcome,
logged as "No Python code found in the response") whenever the raw model
text contains no python-tagged fenced code block, and on a text holding two
such blocks it returns the trimmed inner text of only the first one — the
non-greedy match starts at the first opening delimiter and stops at the
first closing delimiter after it, spanning newlines. -/
theorem code_extractor_first_block_C5 (text a b m b2 e : List Char)
    (hnone : ∀ x y z : List Char,
      text ≠ x ++ (pyFenceOpen ++ (y ++ (pyFenceClose ++ z))))
    (ha : ∀ k, k < a.length → List.isPrefixOf pyFenceOpen
      ((a ++ (pyFenceOpen ++ (b ++ (pyFenceClose ++
        (m ++ (pyFenceOpen ++ (b2 ++ (pyFenceClose ++ e)))))))).drop k) = false)
    (hb : ∀ k, k < b.length → List.isPrefixOf pyFenceClose
      ((b ++ (pyFenceClose ++ (m ++ (pyFenceOpen ++
        (b2 ++ (pyFenceClose ++ e)))))).drop k) = false) :
    extract_python_code text = none ∧
    extract_python_code (a ++ (pyFenceOpen ++ (b ++ (pyFenceClose ++
      (m ++ (pyFenceOpen ++ (b2 ++ (pyFenceClose ++ e)))))))) =
      some (pyStrip b) :=
  ⟨extract_python_code_none hnone, extract_python_code_decompose a b _ ha hb⟩

theorem code_extractor_first_block_C5_witness :
    extract_python_code [] = none ∧
    extract_python_code ("ok ".data ++ (pyFenceOpen ++ (" x = 1 ".data ++
      (pyFenceClose ++ (" mid ".data ++ (pyFenceOpen ++ ("z".data ++
      (pyFenceClose ++ "!".data)))))))) = some (pyStrip " x = 1 ".data) :=
  code_extractor_first_block_C5 [] "ok ".data " x = 1 ".data " mid ".data
    "z".data "!".data
    (fun x y z h => by
      have hlen := congrArg List.length h
      have h9 : pyFenceOpen.length = 9 := rfl
      have h3 : pyFenceClose.length = 3 := rfl
      simp only [List.length_nil, List.length_append] at hlen
      omega)
    (by decide) (by decide)

/-- C8: once the subprocess exits with code 0 (and the earlier stages
succeeded), `generate_manim_animation` scans `media/videos` for files whose
name starts with `MainScene` and ends with `.mp4`; with no match it returns
`None` (the `ArtifactNotProduced` outcome), and otherwise it returns the
path of a matching file of maximal modification time (the most recently
modified one). -/
theorem renderer_artifact_scan_C8 (env : ManimEnv) (code stderr : String)
    (h1 : env.systemPromptOk = true)
    (h2 : env.model = .ok (some code))
    (h3 : (extract_python_code code.data).isSome = true)
    (h4 : env.render = .completed 0 stderr) :
    generate_manim_animation env = find_generated_video env.videoDir ∧
    (manimMatches env.videoDir = [] →
      find_generated_video env.videoDir = none) ∧
    (manimMatches env.videoDir ≠ [] →
      ∃ g, g ∈ manimMatches env.videoDir ∧
        (∀ f ∈ manimMatches env.videoDir, f.2 ≤ g.2) ∧
        find_generated_video env.videoDir = some ("media/videos/" ++ g.1)) := by
  refine ⟨?_, fun h => find_generated_video_empty h,
    fun h => find_generated_video_max h⟩
  obtain ⟨v, hv⟩ := Option.isSome_iff_exists.mp h3
  simp [generate_manim_animation, h1, h2, h4, hv]

theorem renderer_artifact_scan_C8_witness :
    generate_manim_animation
        ⟨true, .ok (some "```python\nx = 1\n```"), .completed 0 "",
          [("other.mp4", 50), ("MainScene1.mp4", 30), ("MainScene2.mp4", 90)]⟩ =
      find_generated_video
        [("other.mp4", 50), ("MainScene1.mp4", 30), ("MainScene2.mp4", 90)] ∧
    (manimMatches [("other.mp4", 50), ("MainScene1.mp4", 30),
        ("MainScene2.mp4", 90)] = [] →
      find_generated_video [("other.mp4", 50), ("MainScene1.mp4", 30),
        ("MainScene2.mp4", 90)] = none) ∧
    (manimMatches [("other.mp4", 50), ("MainScene1.mp4", 30),
        ("MainScene2.mp4", 90)] ≠ [] →
      ∃ g, g ∈ manimMatches [("other.mp4", 50), ("MainScene1.mp4", 30),
          ("MainScene2.mp4", 90)] ∧
        (∀ f ∈ manimMatches [("other.mp4", 50), ("MainScene1.mp4", 30),
          ("MainScene2.mp4", 90)], f.2 ≤ g.2) ∧
        find_generated_video [("other.mp4", 50), ("MainScene1.mp4", 30),
          ("MainScene2.mp4", 90)] = some ("media/videos/" ++ g.1)) :=
  renderer_artifact_scan_C8
    ⟨true, .ok (some "```python\nx = 1\n```"), .completed 0 "",
      [("other.mp4", 50), ("MainScene1.mp4", 30), ("MainScene2.mp4", 90)]⟩
    "```python\nx = 1\n```" "" rfl rfl (by decide) rfl

/-- C9 counterexample: a successful model call whose content is the empty
string is not returned verbatim — the `or` fallback substitutes
"Could not generate summary.", refuting the claim that the summarizer
returns the response text verbatim on every success. -/
theorem summarizer_verbatim_C9_cex :
    summarize_transcript_with_gemini (.ok (some "")) =
      "Could not generate summary." ∧
    summarize_transcript_with_gemini (.ok (some "")) ≠ "" :=
  ⟨rfl, by decide⟩

/-- C9 amended: the summarizer returns the model content verbatim on a
successful call with non-empty content; a successful call with empty or
missing (`None`) content yields the fixed string
"Could not generate summary.", and a raised exception yields the fixed
apology string "Sorry, there was an error generating the summary." — in
every case a plain string is returned, never an exception. -/
theorem summarizer_degradation_C9 (s msg : String) (h : s ≠ "") :
    summarize_transcript_with_gemini (.ok (some s)) = s ∧
    summarize_transcript_with_gemini (.ok (some "")) =
      "Could not generate summary." ∧
    summarize_transcript_with_gemini (.ok none) =
      "Could not generate summary." ∧
    summarize_transcript_with_gemini (.err msg) =
      "Sorry, there was an error generating the summary." :=
  ⟨by simp [summarize_transcript_with_gemini, h], rfl, rfl, rfl⟩

theorem summarizer_degradation_C9_witness :
    summarize_transcript_with_gemini (.ok (some "- a\n- b")) = "- a\n- b" ∧
    summarize_transcript_with_gemini (.ok (some "")) =
      "Could not generate summary." ∧
    summarize_transcript_with_gemini (.ok none) =
      "Could not generate summary." ∧
    summarize_transcript_with_gemini (.err "timeout") =
      "Sorry, there was an error generating the summary." :=
  summarizer_degradation_C9 "- a\n- b" "timeout" (by decide)

/-- Three well-shaped sample questions, as parsed from a valid JSON response
that has only 3 questions. -/
def sampleQuestions3 : List Question :=
  [⟨1, "q1", ["a", "b", "c", "d"], "a"⟩,
   ⟨2, "q2", ["e", "f", "g", "h"], "f"⟩,
   ⟨3, "q3", ["i", "j", "k", "l"], "k"⟩]

/-- A question violating the invariant: its answer is not among its options. -/
def sampleBadQuestion : Question := ⟨4, "q4", ["m", "n", "o", "p"], "zz"⟩

/-- Four questions, one of which violates the Question invariant. -/
def sampleQuestions4 : List Question := sampleQuestions3 ++ [sampleBadQuestion]

/-- C1 counterexample: on a valid JSON object with exactly 3 questions,
`generate_quiz_with_gemini` returns the 3-question quiz unchanged (ids
attached), not the unpopulated fallback — no length validation exists. -/
theorem quiz_synth_three_questions_C1_cex :
    generate_quiz_with_gemini (.jsonObject (some sampleQuestions3))
        "quiz_aaaaaaaa" "vid_bbbbbbbb" =
      ⟨"quiz_aaaaaaaa", "vid_bbbbbbbb", some sampleQuestions3⟩ ∧
    sampleQuestions3.length = 3 ∧
    (generate_quiz_with_gemini (.jsonObject (some sampleQuestions3))
        "quiz_aaaaaaaa" "vid_bbbbbbbb").questions ≠ some [] :=
  ⟨rfl, by decide, by decide⟩

/-- C1 amended: `generate_quiz_with_gemini` performs no length check on the
parsed `questions` sequence: a valid JSON object with 3 questions is
returned as a 3-question quiz with a fresh quiz id and the given video id,
not as an unpopulated quiz; the unpopulated fallback is produced only when
an exception is raised (transport error, JSON parse error, non-object
JSON). -/
theorem quiz_synth_no_length_validation_C1 (qs : List Question)
    (fresh vid : String) (h3 : qs.length = 3) :
    generate_quiz_with_gemini (.jsonObject (some qs)) fresh vid =
      ⟨fresh, vid, some qs⟩ ∧
    (generate_quiz_with_gemini (.jsonObject (some qs)) fresh vid).questions ≠
      some [] :=
  ⟨rfl, fun hc => by
    have hq : qs = [] := Option.some.inj hc
    simp [hq] at h3⟩

theorem quiz_synth_no_length_validation_C1_witness :
    generate_quiz_with_gemini (.jsonObject (some sampleQuestions3))
        "quiz_cccccccc" "vid_dddddddd" =
      ⟨"quiz_cccccccc", "vid_dddddddd", some sampleQuestions3⟩ ∧
    (generate_quiz_with_gemini (.jsonObject (some sampleQuestions3))
        "quiz_cccccccc" "vid_dddddddd").questions ≠ some [] :=
  quiz_synth_no_length_validation_C1 sampleQuestions3
    "quiz_cccccccc" "vid_dddddddd" (by decide)

/-- C2 counterexample: a valid JSON object with 4 questions, one of whose
answer is not among its options, is returned as a populated quiz by
`generate_quiz_with_gemini` — the Question invariants are not enforced. -/
theorem quiz_synth_invariant_violation_C2_cex :
    (generate_quiz_with_gemini (.jsonObject (some sampleQuestions4))
        "quiz_eeeeeeee" "vid_ffffffff").questions = some sampleQuestions4 ∧
    sampleQuestions4.length = 4 ∧
    ¬ (∀ q ∈ sampleQuestions4, questionInvariant q) :=
  ⟨rfl, by decide, by decide⟩

/-- C2 amended: the quiz synthesizer validates nothing about the parsed
questions: whatever `questions` value the JSON object carries is returned
unchanged (so a populated quiz satisfies the Question invariants only if
the model output already did), and the empty-question fallback arises
exactly on the exception paths (transport error, parse error, non-object
JSON). -/
theorem quiz_synth_passthrough_C2 (qs : List Question)
    (oqs : Option (List Question)) (fresh vid msg : String) :
    (generate_quiz_with_gemini (.jsonObject oqs) fresh vid).questions = oqs ∧
    (generate_quiz_with_gemini (.transportError msg) fresh vid).questions =
      some [] ∧
    (generate_quiz_with_gemini .invalidJson fresh vid).questions = some [] ∧
    (generate_quiz_with_gemini .jsonNonObject fresh vid).questions = some [] ∧
    generate_quiz_with_gemini (.jsonObject (some qs)) fresh vid =
      ⟨fresh, vid, some qs⟩ :=
  ⟨rfl, rfl, rfl, rfl, rfl⟩

/-- C3: with both request fields present (and non-empty, which is what the
validation gate lets through), `generate_video` succeeds and returns a
record whose title is the derived title — at most 33 characters long, and
equal to the prompt unchanged when the prompt has at most 30 characters —
and whose topic tags are exactly the lowercase whitespace-split tokens of
the prompt of length strictly greater than 3, in original order. -/
theorem orchestrator_title_tags_C3 (prompt_in user_in : Option String)
    (env : GenEnv) (videos : List VideoRecord)
    (quizzes : List (String × QuizData))
    (h1 : pyFalsy prompt_in = false) (h2 : pyFalsy user_in = false) :
    (generate_video prompt_in user_in env videos quizzes).1.map
        (fun p => p.1.title) = .ok (deriveTitle (prompt_in.getD "")) ∧
    (generate_video prompt_in user_in env videos quizzes).1.map
        (fun p => p.1.topic_tags) =
      .ok ((pySplit (pyLower (prompt_in.getD ""))).filter
        (fun tag => tag.length > 3)) ∧
    (deriveTitle (prompt_in.getD "")).length ≤ 33 ∧
    ((prompt_in.getD "").length ≤ 30 →
      deriveTitle (prompt_in.getD "") = prompt_in.getD "") := by
  have hcond : (pyFalsy prompt_in || pyFalsy user_in) = false := by
    rw [h1, h2]; rfl
  refine ⟨?_, ?_, deriveTitle_length_le _, fun h => deriveTitle_short _ h⟩
  · simp [generate_video, hcond, Except.map]
  · simp [generate_video, hcond, topicTags, Except.map]

theorem orchestrator_title_tags_C3_witness :
    (generate_video (some "explain how black holes form") (some "u1")
        ⟨"vid_w1", "quiz_w1", ⟨true, .err "down", .timeout, []⟩,
          .invalidJson, "2026-01-01T00:00:00"⟩ [] []).1.map
        (fun p => p.1.title) = .ok "explain how black holes form" ∧
    (generate_video (some "explain how black holes form") (some "u1")
        ⟨"vid_w1", "quiz_w1", ⟨true, .err "down", .timeout, []⟩,
          .invalidJson, "2026-01-01T00:00:00"⟩ [] []).1.map
        (fun p => p.1.topic_tags) =
      .ok ["explain", "black", "holes", "form"] := by
  have h := orchestrator_title_tags_C3 (some "explain how black holes form")
    (some "u1")
    ⟨"vid_w1", "quiz_w1", ⟨true, .err "down", .timeout, []⟩,
      .invalidJson, "2026-01-01T00:00:00"⟩ [] [] rfl rfl
  exact ⟨h.1.trans (by rfl), h.2.1.trans (by rfl)⟩

/-- C4: whenever any stage of the Manim pipeline fails — prompt-file read
error, model exception or missing content, no python code block, subprocess
timeout, missing tool, other subprocess error, non-zero exit code, or no
matching artifact — `generate_video` (with valid input fields) still
returns an HTTP-200 payload whose video record carries the fixed fallback
sentinel `mock_video.mp4`; no error propagates outward. -/
theorem orchestrator_fallback_C4 (prompt_in user_in : Option String)
    (env : GenEnv) (videos : List VideoRecord)
    (quizzes : List (String × QuizData))
    (h1 : pyFalsy prompt_in = false) (h2 : pyFalsy user_in = false)
    (hf : manimStageFailed env.manim) :
    (generate_video prompt_in user_in env videos quizzes).1.map
      (fun p => p.1.video_file_url) = .ok "mock_video.mp4" := by
  have hcond : (pyFalsy prompt_in || pyFalsy user_in) = false := by
    rw [h1, h2]; rfl
  have hman := generate_manim_animation_eq_none hf
  simp [generate_video, hcond, hman, Except.map]

theorem orchestrator_fallback_C4_witness :
    (generate_video (some "explain entropy") (some "u1")
        ⟨"vid_w2", "quiz_w2", ⟨true, .err "api down", .timeout, []⟩,
          .invalidJson, "2026-01-01T00:00:00"⟩ [] []).1.map
      (fun p => p.1.video_file_url) = .ok "mock_video.mp4" :=
  orchestrator_fallback_C4 (some "explain entropy") (some "u1")
    ⟨"vid_w2", "quiz_w2", ⟨true, .err "api down", .timeout, []⟩,
      .invalidJson, "2026-01-01T00:00:00"⟩ [] [] rfl rfl
    (Or.inr (Or.inl ⟨"api down", rfl⟩))

/-- C10: `generate_video` rejects the request with HTTP 400 and leaves the
video list and quiz store untouched not only when `prompt` or `user_id` is
absent from the body but also when either is present and equal to the empty
string (Python truthiness: `if not prompt or not user_id`). -/
theorem validation_rejects_empty_C10 (prompt_in user_in : Option String)
    (env : GenEnv) (videos : List VideoRecord)
    (quizzes : List (String × QuizData))
    (h : prompt_in = none ∨ prompt_in = some "" ∨
      user_in = none ∨ user_in = some "") :
    generate_video prompt_in user_in env videos quizzes =
      (.error (400, "Prompt and user_id are required"), videos, quizzes) := by
  have hcond : (pyFalsy prompt_in || pyFalsy user_in) = true := by
    rcases h with h | h | h | h <;> subst h <;> simp [pyFalsy]
  simp [generate_video, hcond]

theorem validation_rejects_empty_C10_witness :
    generate_video (some "") (some "u1")
        ⟨"vid_w3", "quiz_w3", ⟨true, .err "x", .timeout, []⟩,
          .invalidJson, "2026-01-01T00:00:00"⟩ [] [] =
      (.error (400, "Prompt and user_id are required"), [], []) :=
  validation_rejects_empty_C10 (some "") (some "u1")
    ⟨"vid_w3", "quiz_w3", ⟨true, .err "x", .timeout, []⟩,
      .invalidJson, "2026-01-01T00:00:00"⟩ [] []
    (Or.inr (Or.inl rfl))

/-- Four sample questions; the submitted sample answers match the first
three exactly and omit the fourth (id 9). -/
def scorerQuestions : List Question :=
  [⟨1, "q1", ["a", "b", "c", "d"], "a"⟩,
   ⟨2, "q2", ["e", "f", "g", "h"], "f"⟩,
   ⟨3, "q3", ["i", "j", "k", "l"], "k"⟩,
   ⟨9, "q9", ["m", "n", "o", "p"], "m"⟩]

/-- Sample submitted answers for `scorerQuestions`. -/
def scorerAnswers : List (String × String) :=
  [("1", "a"), ("2", "f"), ("3", "k")]

/-- C6: for a 4-question quiz whose submitted answers match exactly 3
questions, `submit_quiz` reports correct 3, total 4, percentage 75 and
passed; for a quiz with an empty question list it reports total 0,
percentage 0 and not passed — with no division error. -/
theorem scorer_values_C6 (questions : List Question)
    (answers : List (String × String))
    (h4 : questions.length = 4) (h3 : countCorrect answers questions = 3) :
    submit_quiz_score questions answers = ⟨3, 4, 75, true⟩ ∧
    submit_quiz_score [] answers = ⟨0, 0, 0, false⟩ := by
  constructor
  · simp only [submit_quiz_score, h3, h4]
    norm_num [decide_eq_true_eq]
  · simp only [submit_quiz_score, countCorrect, List.length_nil]
    norm_num [decide_eq_true_eq, decide_eq_false_iff_not]

theorem scorer_values_C6_witness :
    submit_quiz_score scorerQuestions scorerAnswers = ⟨3, 4, 75, true⟩ ∧
    submit_quiz_score [] scorerAnswers = ⟨0, 0, 0, false⟩ :=
  scorer_values_C6 scorerQuestions scorerAnswers (by decide) (by decide)

/-- C7: scoring a well-formed quiz never raises (the checked evaluation,
with Python division kept fallible, always returns `ok`); the number of
correct answers is the number of questions whose submitted answer passes
the match test; a question whose id has no entry in the answers map never
matches; and a present entry matches exactly when it is string-equal to the
stored answer. -/
theorem scorer_total_C7 (questions : List Question)
    (answers : List (String × String)) :
    submit_quiz_score_checked questions answers =
      .ok (submit_quiz_score questions answers) ∧
    (submit_quiz_score questions answers).correct =
      (questions.filter (answerMatches answers)).length ∧
    (∀ q ∈ questions, lookupAnswer answers (toString q.id) = none →
      answerMatches answers q = false) ∧
    (∀ q ∈ questions, ∀ s, lookupAnswer answers (toString q.id) = some s →
      (answerMatches answers q = true ↔ s = q.answer)) := by
  refine ⟨?_, countCorrect_eq_filter_length answers questions, ?_, ?_⟩
  · by_cases ht : questions.length > 0
    · have hne : ((questions.length : ℚ)) ≠ 0 := by exact_mod_cast ht.ne'
      simp [submit_quiz_score_checked, submit_quiz_score, pyDiv, ht, hne, Except.map]
    · simp [submit_quiz_score_checked, submit_quiz_score, ht, Except.map]
  · intro q _ hmiss
    simp [answerMatches, hmiss]
  · intro q _ s hs
    simp [answerMatches, hs]

theorem scorer_total_C7_witness :
    submit_quiz_score_checked scorerQuestions scorerAnswers =
      .ok (submit_quiz_score scorerQuestions scorerAnswers) ∧
    (submit_quiz_score scorerQuestions scorerAnswers).correct =
      (scorerQuestions.filter (answerMatches scorerAnswers)).length ∧
    answerMatches scorerAnswers ⟨9, "q9", ["m", "n", "o", "p"], "m"⟩ = false ∧
    (answerMatches scorerAnswers ⟨1, "q1", ["a", "b", "c", "d"], "a"⟩ = true ↔
      "a" = "a") :=
  ⟨(scorer_total_C7 scorerQuestions scorerAnswers).1,
   (scorer_total_C7 scorerQuestions scorerAnswers).2.1,
   (scorer_total_C7 scorerQuestions scorerAnswers).2.2.1
     ⟨9, "q9", ["m", "n", "o", "p"], "m"⟩ (by decide) (by decide),
   (scorer_total_C7 scorerQuestions scorerAnswers).2.2.2
     ⟨1, "q1", ["a", "b", "c", "d"], "a"⟩ (by decide) "a" (by decide)⟩
